import Mathlib

/-!
Verification of `twisted/python/logger/_syslog.py` (the syslog log observer).

The module is embedded shallowly: the event dictionary is an association list
from string keys to Python values, fallible Python operations (`dict[k]`,
`int(...)`, `.getTraceback()`) return `Except`, and `SyslogObserver.__call__`
is a pure function from a formatting function and an event to the list of
`syslog(priority | facility, text)` submissions it performs.
-/

set_option autoImplicit false

namespace TwistedSyslog

/-- Modelled from the spec: the symbolic log levels come from
`twisted.python.logger._levels.LogLevel`, which is not among the sources;
the spec fixes the enumeration as exactly debug, info, warn, error, critical. -/
inductive LogLevel where
  | debug
  | info
  | warn
  | error
  | critical
deriving DecidableEq, Fintype, Repr

/-- A Python value that can sit in an event dictionary, as far as this module
inspects them: a `LogLevel` member, a failure object (carrying the string its
`getTraceback()` method returns), or an integer. -/
inductive Value where
  | level (l : LogLevel)
  | failure (traceback : String)
  | int (n : Nat)
deriving DecidableEq, Repr

/-- An event: a Python dict from field names to values. -/
abbrev Dict := List (String × Value)

/-- Python `d[k]` as a total lookup: the value if the key is present. -/
def Dict.lookup (d : Dict) (k : String) : Option Value :=
  (d.find? (fun p => p.1 == k)).map (fun p => p.2)

/-- Python `k in d`. -/
def Dict.contains (d : Dict) (k : String) : Bool :=
  (Dict.lookup d k).isSome

/-- Python `d[k]`, raising `KeyError` when the key is absent. -/
def Dict.getitem (d : Dict) (k : String) : Except String Value :=
  match Dict.lookup d k with
  | some v => Except.ok v
  | none => Except.error "KeyError"

/-- Python `int(v)`: succeeds on integers, raises `TypeError` on `LogLevel`
members and failure objects. -/
def pyInt : Value → Except String Nat
  | Value.int n => Except.ok n
  | _ => Except.error "TypeError: int() argument"

/-- Python `v.getTraceback()`: defined on failure objects, raises
`AttributeError` otherwise. -/
def pyGetTraceback : Value → Except String String
  | Value.failure tb => Except.ok tb
  | _ => Except.error "AttributeError: getTraceback"

/-! Constants of Python's `syslog` module (the values used on Linux, where
these tests run); `DEFAULT_OPTIONS` and `DEFAULT_FACILITY` are the module's
own constants. -/

def LOG_ALERT : Nat := 1
def LOG_ERR : Nat := 3
def LOG_WARNING : Nat := 4
def LOG_INFO : Nat := 6
def LOG_DEBUG : Nat := 7
def LOG_USER : Nat := 8

def DEFAULT_OPTIONS : Nat := 0
def DEFAULT_FACILITY : Nat := LOG_USER

/-- `toSyslogLevelMapping`: the dict
`{debug: LOG_DEBUG, info: LOG_INFO, warn: LOG_WARNING, error: LOG_ERR,
critical: LOG_ALERT}`, total on the five levels. -/
def toSyslogLevelMapping : LogLevel → Nat
  | LogLevel.debug => LOG_DEBUG
  | LogLevel.info => LOG_INFO
  | LogLevel.warn => LOG_WARNING
  | LogLevel.error => LOG_ERR
  | LogLevel.critical => LOG_ALERT

/-- Python `text.split('\n')` on the character list: split at every newline,
keeping empty pieces (`''.split('\n') == ['']`). -/
def pySplitNl : List Char → List (List Char)
  | [] => [[]]
  | c :: cs =>
    if c = '\n' then [] :: pySplitNl cs
    else
      match pySplitNl cs with
      | [] => [[c]]
      | p :: ps => (c :: p) :: ps

/-- `text.split('\n')` on strings. -/
def splitOnNewline (s : String) : List String :=
  (pySplitNl s.toList).map (fun cs => String.mk cs)

/-- `while lines[-1:] == ['']: lines.pop()` — repeatedly drop trailing empty
strings. -/
def dropTrailingEmpty (lines : List String) : List String :=
  (lines.reverse.dropWhile (fun l => l == "")).reverse

/-- One `self.syslog(priority | facility, text)` call: its two arguments. -/
structure Submission where
  priofac : Nat
  text : String
deriving DecidableEq, Repr

/-- The submission loop of `SyslogObserver.__call__`:
```
firstLine = True
for line in lines:
    if firstLine: firstLine = False
    else: line = '\t' + line
    self.syslog(priority | facility, text)
```
The indented copy of the line is computed but the call passes `text`. -/
def writeLines (priofac : Nat) (text : String) : List String → Bool → List Submission
  | [], _ => []
  | line :: rest, firstLine =>
    let line := if firstLine then line else "\t" ++ line
    { priofac := priofac, text := text } :: writeLines priofac text rest false

/-- The text part of `SyslogObserver.__call__`: the formatted event (with
`None` treated as `u""`), with `u"\n".join((text, traceback))` appended when
the event carries a `log_failure`. -/
def resolveText (formatEvent : Dict → Option String) (event : Dict) :
    Except String String :=
  let text := match formatEvent event with | none => "" | some t => t
  if Dict.contains event "log_failure" then
    match Dict.getitem event "log_failure" with
    | Except.ok v =>
      match pyGetTraceback v with
      | Except.ok tb => Except.ok (text ++ "\n" ++ tb)
      | Except.error e => Except.error e
    | Except.error e => Except.error e
  else
    Except.ok text

/-- The priority part of `SyslogObserver.__call__`:
`try: priority = toSyslogLevelMapping[event['log_level']] except KeyError:
priority = LOG_INFO` (a missing key and a non-level value both raise
`KeyError`, both caught), then the `log_failure` / `syslogPriority`
overrides, in that order. -/
def resolvePriority (event : Dict) : Except String Nat :=
  let priority : Nat :=
    match Dict.lookup event "log_level" with
    | some (Value.level l) => toSyslogLevelMapping l
    | _ => LOG_INFO
  if Dict.contains event "log_failure" then
    Except.ok LOG_ALERT
  else if Dict.contains event "syslogPriority" then
    match Dict.getitem event "syslogPriority" with
    | Except.ok v => pyInt v
    | Except.error e => Except.error e
  else
    Except.ok priority

/-- The facility used for the submissions: `facility = 0`, overridden by
`int(event['syslogFacility'])` when the key is present. -/
def resolveFacility (event : Dict) : Except String Nat :=
  if Dict.contains event "syslogFacility" then
    match Dict.getitem event "syslogFacility" with
    | Except.ok v => pyInt v
    | Except.error e => Except.error e
  else
    Except.ok 0

/-- `SyslogObserver.__call__(self, event)` with `self.formatEvent` abstracted
as `formatEvent`: the list of `self.syslog` submissions performed, or the
first exception raised.  `self._encoding` is always `None` (the `if False`
branch of `__init__` never runs), so the `text.encode` step is dead code and
does not appear. -/
def observerCall (formatEvent : Dict → Option String) (event : Dict) :
    Except String (List Submission) :=
  match resolveText formatEvent event with
  | Except.error e => Except.error e
  | Except.ok text =>
    match resolvePriority event with
    | Except.error e => Except.error e
    | Except.ok priority =>
      -- `if text:` — Python string truthiness
      if text = "" then Except.ok []
      else
        match resolveFacility event with
        | Except.error e => Except.error e
        | Except.ok facility =>
          let lines := dropTrailingEmpty (splitOnNewline text)
          Except.ok (writeLines (priority ||| facility) text lines true)

/-- The identity of the callable bound to `self.syslog`: either the
module-level `syslog.syslog` function or some other injected callable. -/
inductive SyslogFn where
  | stdsyslog
  | custom (id : Nat)
deriving DecidableEq, Repr

/-- The state of a `SyslogObserver` instance after `__init__`: the arguments
passed to `self.openlog`, the `_encoding`, `self.formatEvent` and
`self.syslog` attributes. -/
structure SyslogObserver where
  openlogIdent : String
  openlogOptions : Nat
  openlogFacility : Nat
  encoding : Option String
  formatEvent : Dict → Option String
  syslogFn : SyslogFn

/-- `SyslogObserver.__init__(self, formatEvent, prefix, options, facility,
syslog)`.  Note the source sets `self.syslog = stdsyslog.syslog`, leaving the
`syslog` parameter unused. -/
def SyslogObserver.init (formatEvent : Dict → Option String) (pfx : String)
    (options : Nat) (facility : Nat) (syslogArg : SyslogFn) : SyslogObserver :=
  { openlogIdent := pfx
    openlogOptions := options
    openlogFacility := facility
    -- if False: self._encoding = "utf-8" else: self._encoding = None
    encoding := if False then some "utf-8" else none
    formatEvent := formatEvent
    -- self.syslog = stdsyslog.syslog   (not the `syslog` parameter)
    syslogFn := SyslogFn.stdsyslog }

/-- Calling the observer: each submission goes to the callable stored in
`self.syslog`. -/
def SyslogObserver.observe (self : SyslogObserver) (event : Dict) :
    Except String (List (SyslogFn × Submission)) :=
  (observerCall self.formatEvent event).map
    (fun subs => subs.map (fun s => (self.syslogFn, s)))

/-- `textSyslogObserver(prefix, options, facility, timeFormat)`.  The two
helpers of `twisted.python.logger._format` that the closure uses are not part
of the sources, so they are taken as parameters `fecClassic`
(for `formatEventAsClassicLogText`) and `fTime` (for `formatTime`); the claim
about this function does not depend on their behaviour.  Note the source
passes `options=DEFAULT_OPTIONS, facility=DEFAULT_FACILITY` to the
constructor, not its own `options` and `facility` arguments. -/
def textSyslogObserver (fecClassic : Dict → (Dict → String) → Option String)
    (fTime : Dict → Option String → String) (pfx : String)
    (options : Nat) (facility : Nat) (timeFormat : Option String) :
    SyslogObserver :=
  let formatEvent : Dict → Option String :=
    fun event => fecClassic event (fun e => fTime e timeFormat)
  SyslogObserver.init formatEvent pfx DEFAULT_OPTIONS DEFAULT_FACILITY
    SyslogFn.stdsyslog

/-! ### The dictionary operations `__call__` performs on the event

For the frame claim, the dictionary accesses of `__call__` are recorded as an
operation trace, in source order, truncated where an exception aborts the
call.  `DictOp` can express mutation, so that "the trace is all reads" is a
statement about the code, not about the type. -/

/-- A primitive Python dict operation on the event. -/
inductive DictOp where
  | read (key : String)
  | write (key : String) (v : Value)
  | del (key : String)
deriving DecidableEq, Repr

/-- The effect of one dict operation on an association-list dict. -/
def applyOp (d : Dict) : DictOp → Dict
  | DictOp.read _ => d
  | DictOp.write k v => (k, v) :: d.filter (fun p => !(p.1 == k))
  | DictOp.del k => d.filter (fun p => !(p.1 == k))

/-- Is the operation a pure read (`d[k]` or `k in d`)? -/
def DictOp.isRead : DictOp → Bool
  | DictOp.read _ => true
  | _ => false

/-- The facility block: `'syslogFacility' in event`, then
`event['syslogFacility']` when present. -/
def facilityTrace (event : Dict) : List DictOp :=
  DictOp.read "syslogFacility" ::
    (if Dict.contains event "syslogFacility" then [DictOp.read "syslogFacility"]
     else [])

/-- The trace from `if text:` on: no further event access when the text is
empty, otherwise the facility block.  (The split / pop / submission loop
touches only local state.) -/
def submitTrace (formatEvent : Dict → Option String) (event : Dict) :
    List DictOp :=
  match resolveText formatEvent event with
  | Except.error _ => []
  | Except.ok text => if text = "" then [] else facilityTrace event

/-- Every dict operation `SyslogObserver.__call__` performs on `event`, in
source order: the `event['log_level']` lookup (its `KeyError` is caught), the
`"log_failure" in event` test, then per branch the failure/`syslogPriority`
accesses, then the facility block, truncating where `getTraceback` or
`int()` raises.  The injected `formatEvent` receives the event first; its own
accesses are not operations of this component. -/
def callTrace (formatEvent : Dict → Option String) (event : Dict) :
    List DictOp :=
  DictOp.read "log_level" ::
  DictOp.read "log_failure" ::
  (if Dict.contains event "log_failure" then
    DictOp.read "log_failure" ::
      (match resolveText formatEvent event with
       | Except.error _ => []
       | Except.ok text => if text = "" then [] else facilityTrace event)
  else
    DictOp.read "syslogPriority" ::
      (if Dict.contains event "syslogPriority" then
        DictOp.read "syslogPriority" ::
          (match resolvePriority event with
           | Except.error _ => []
           | Except.ok _ => submitTrace formatEvent event)
      else
        submitTrace formatEvent event))

/-! ### Helper lemmas -/

theorem Dict.contains_eq (d : Dict) (k : String) :
    Dict.contains d k = (Dict.lookup d k).isSome := rfl

theorem writeLines_eq_map (priofac : Nat) (text : String) (lines : List String)
    (b : Bool) :
    writeLines priofac text lines b
      = lines.map (fun _ => Submission.mk priofac text) := by
  induction lines generalizing b with
  | nil => rfl
  | cons l ls ih => simp [writeLines, ih]

/-- A successful `__call__` either hit the empty-text skip, or produced one
submission per retained line, each carrying `priority ||| facility` and the
full text. -/
theorem observerCall_ok_cases (fmt : Dict → Option String) (ev : Dict)
    (subs : List Submission) (t : String)
    (hc : observerCall fmt ev = Except.ok subs)
    (ht : resolveText fmt ev = Except.ok t) :
    (t = "" ∧ subs = []) ∨
    ∃ p f, resolvePriority ev = Except.ok p ∧ resolveFacility ev = Except.ok f ∧
      subs = (dropTrailingEmpty (splitOnNewline t)).map
        (fun _ => Submission.mk (p ||| f) t) := by
  unfold observerCall at hc
  rw [ht] at hc
  cases hp : resolvePriority ev with
  | error e => rw [hp] at hc; simp at hc
  | ok p =>
    rw [hp] at hc
    simp only [] at hc
    by_cases hte : t = ""
    · rw [if_pos hte] at hc
      simp only [Except.ok.injEq] at hc
      exact Or.inl ⟨hte, hc.symm⟩
    · rw [if_neg hte] at hc
      cases hf : resolveFacility ev with
      | error e => rw [hf] at hc; simp at hc
      | ok f =>
        rw [hf] at hc
        simp only [Except.ok.injEq] at hc
        exact Or.inr ⟨p, f, rfl, rfl, by rw [← hc, writeLines_eq_map]⟩

/-- On a successful `__call__`, every submitted payload is the full resolved
text. -/
theorem observerCall_texts (fmt : Dict → Option String) (ev : Dict)
    (subs : List Submission) (t : String)
    (hc : observerCall fmt ev = Except.ok subs)
    (ht : resolveText fmt ev = Except.ok t) :
    subs.map Submission.text = List.replicate subs.length t := by
  rcases observerCall_ok_cases fmt ev subs t hc ht with ⟨_, rfl⟩ | ⟨p, f, _, _, rfl⟩
  · rfl
  · simp [List.map_map, Function.comp]

/-- A trace of reads, folded over a dict, changes nothing. -/
theorem foldl_applyOp_of_reads (ops : List DictOp) (d : Dict)
    (h : ops.all DictOp.isRead = true) : ops.foldl applyOp d = d := by
  induction ops generalizing d with
  | nil => rfl
  | cons op rest ih =>
    rw [List.all_cons, Bool.and_eq_true] at h
    cases op with
    | read k => exact ih d h.2
    | write k v => simp [DictOp.isRead] at h
    | del k => simp [DictOp.isRead] at h

theorem facilityTrace_all_reads (ev : Dict) :
    (facilityTrace ev).all DictOp.isRead = true := by
  cases h : Dict.contains ev "syslogFacility" <;>
    simp [facilityTrace, h, DictOp.isRead]

theorem submitTrace_all_reads (fmt : Dict → Option String) (ev : Dict) :
    (submitTrace fmt ev).all DictOp.isRead = true := by
  unfold submitTrace
  cases h : resolveText fmt ev with
  | error e => simp
  | ok text =>
    by_cases ht : text = "" <;> simp [ht, facilityTrace_all_reads]

theorem callTrace_all_reads (fmt : Dict → Option String) (ev : Dict) :
    (callTrace fmt ev).all DictOp.isRead = true := by
  unfold callTrace
  cases hcf : Dict.contains ev "log_failure"
  · cases hcp : Dict.contains ev "syslogPriority"
    · simp [DictOp.isRead, submitTrace_all_reads]
    · cases hp : resolvePriority ev <;>
        simp [hp, DictOp.isRead, submitTrace_all_reads]
  · cases h : resolveText fmt ev with
    | error e => simp [DictOp.isRead]
    | ok text =>
      by_cases ht : text = "" <;>
        simp [ht, DictOp.isRead, facilityTrace_all_reads]

/-! ### The claims -/

/-- C1: for every emission with non-empty resolved text, every per-line
submission carries the entire joined formatted text as its second argument —
the same full string in all of them, not the per-line substring — and the
computed tab indentation of continuation lines never reaches the submitted
payload. -/
theorem C1_full_text_payload (fmt : Dict → Option String) (ev : Dict)
    (subs : List Submission) (t : String)
    (hc : observerCall fmt ev = Except.ok subs)
    (ht : resolveText fmt ev = Except.ok t) (hne : t ≠ "") :
    subs.map Submission.text = List.replicate subs.length t :=
  observerCall_texts fmt ev subs t hc ht

/-- C1 witness: a two-line text; both submissions carry the full string
`"a\nb"`. -/
theorem C1_full_text_payload_witness :
    ([Submission.mk (LOG_INFO ||| 0) "a\nb",
      Submission.mk (LOG_INFO ||| 0) "a\nb"].map Submission.text)
      = List.replicate 2 "a\nb" :=
  C1_full_text_payload (fun _ => some "a\nb") []
    [Submission.mk (LOG_INFO ||| 0) "a\nb", Submission.mk (LOG_INFO ||| 0) "a\nb"]
    "a\nb" rfl rfl (by decide)

/-- C2: for every emission with non-empty resolved text, the submissions are
exactly one per line of the text split on newlines with trailing empty lines
repeatedly dropped, in order, each with `priority ||| facility` as first
argument, where the facility is `int(event["syslogFacility"])` when present
and `0` otherwise. -/
theorem C2_line_count_and_facility (fmt : Dict → Option String) (ev : Dict)
    (subs : List Submission) (t : String) (p f : Nat)
    (hc : observerCall fmt ev = Except.ok subs)
    (ht : resolveText fmt ev = Except.ok t) (hne : t ≠ "")
    (hp : resolvePriority ev = Except.ok p)
    (hf : resolveFacility ev = Except.ok f) :
    subs = (dropTrailingEmpty (splitOnNewline t)).map
        (fun _ => Submission.mk (p ||| f) t) ∧
    f = (match Dict.lookup ev "syslogFacility" with
         | some (Value.int m) => m
         | _ => 0) := by
  constructor
  · rcases observerCall_ok_cases fmt ev subs t hc ht with ⟨hte, _⟩ | ⟨p', f', hp', hf', hsubs⟩
    · exact absurd hte hne
    · rw [hp'] at hp
      rw [hf'] at hf
      simp only [Except.ok.injEq] at hp hf
      rw [hsubs, hp, hf]
  · cases hl : Dict.lookup ev "syslogFacility" with
    | none =>
      unfold resolveFacility at hf
      rw [Dict.contains_eq, hl] at hf
      simp only [Option.isSome_none, Bool.false_eq_true, if_false,
        Except.ok.injEq] at hf
      simp [hf]
    | some v =>
      unfold resolveFacility at hf
      rw [Dict.contains_eq, hl] at hf
      simp only [Option.isSome_some, if_true, Dict.getitem, hl] at hf
      cases v with
      | int m => simp [pyInt] at hf; simp [hf]
      | level l => simp [pyInt] at hf
      | failure tb => simp [pyInt] at hf

/-- C2 witness: `syslogFacility = 9` with default level and text `"hello"`:
one submission with first argument `LOG_INFO ||| 9`. -/
theorem C2_line_count_and_facility_witness :
    [Submission.mk (LOG_INFO ||| 9) "hello"]
      = (dropTrailingEmpty (splitOnNewline "hello")).map
          (fun _ => Submission.mk (LOG_INFO ||| 9) "hello") ∧
    (9 : Nat) = (match Dict.lookup [("syslogFacility", Value.int 9)] "syslogFacility" with
         | some (Value.int m) => m
         | _ => 0) :=
  C2_line_count_and_facility (fun _ => some "hello")
    [("syslogFacility", Value.int 9)]
    [Submission.mk (LOG_INFO ||| 9) "hello"] "hello" LOG_INFO 9
    rfl rfl (by decide) rfl rfl

/-- C3: priority precedence — an event carrying a failure value resolves to
ALERT regardless of any `log_level` or `syslogPriority` also present, and an
event without a failure but with an integer `syslogPriority` resolves to that
integer, overriding any level-derived priority. -/
theorem C3_priority_precedence (ev : Dict) :
    (∀ tb, Dict.lookup ev "log_failure" = some (Value.failure tb) →
      resolvePriority ev = Except.ok LOG_ALERT) ∧
    (Dict.contains ev "log_failure" = false →
      ∀ n, Dict.lookup ev "syslogPriority" = some (Value.int n) →
        resolvePriority ev = Except.ok n) := by
  constructor
  · intro tb h
    unfold resolvePriority
    rw [Dict.contains_eq, h]
    simp
  · intro hnf n h
    unfold resolvePriority
    rw [Dict.contains_eq] at hnf
    rw [Dict.contains_eq, hnf, Dict.contains_eq, h]
    simp [Dict.getitem, h, pyInt]

/-- C3 witness: with `log_level`, `syslogPriority` and a failure all present
the priority is ALERT; dropping the failure, the explicit `syslogPriority`
(5) wins over the level. -/
theorem C3_priority_precedence_witness :
    resolvePriority [("log_level", Value.level LogLevel.debug),
        ("syslogPriority", Value.int 5),
        ("log_failure", Value.failure "TB")] = Except.ok LOG_ALERT ∧
    resolvePriority [("log_level", Value.level LogLevel.debug),
        ("syslogPriority", Value.int 5)] = Except.ok 5 :=
  ⟨(C3_priority_precedence [("log_level", Value.level LogLevel.debug),
      ("syslogPriority", Value.int 5),
      ("log_failure", Value.failure "TB")]).1 "TB" rfl,
   (C3_priority_precedence [("log_level", Value.level LogLevel.debug),
      ("syslogPriority", Value.int 5)]).2 rfl 5 rfl⟩

/-- C4: with no failure and no `syslogPriority` override, an event whose
`log_level` is one of the five symbolic levels resolves to the fixed table:
debug→DEBUG, info→INFO, warn→WARNING, error→ERR, critical→ALERT. -/
theorem C4_level_mapping_table (ev : Dict) (l : LogLevel)
    (hnf : Dict.contains ev "log_failure" = false)
    (hnp : Dict.contains ev "syslogPriority" = false)
    (hl : Dict.lookup ev "log_level" = some (Value.level l)) :
    resolvePriority ev = Except.ok
      (match l with
       | LogLevel.debug => LOG_DEBUG
       | LogLevel.info => LOG_INFO
       | LogLevel.warn => LOG_WARNING
       | LogLevel.error => LOG_ERR
       | LogLevel.critical => LOG_ALERT) := by
  cases l <;> simp [resolvePriority, hnf, hnp, hl, toSyslogLevelMapping]

/-- C4 witness: `log_level = warn` resolves to LOG_WARNING. -/
theorem C4_level_mapping_table_witness :
    resolvePriority [("log_level", Value.level LogLevel.warn)]
      = Except.ok LOG_WARNING :=
  C4_level_mapping_table [("log_level", Value.level LogLevel.warn)]
    LogLevel.warn rfl rfl rfl

/-- C5: with no failure and no `syslogPriority`, an event whose `log_level`
is absent or not one of the five symbolic levels resolves to INFO, and no
error is raised (the `KeyError` is caught). -/
theorem C5_unrecognized_level_info (ev : Dict)
    (hnf : Dict.contains ev "log_failure" = false)
    (hnp : Dict.contains ev "syslogPriority" = false)
    (hl : ∀ l : LogLevel, Dict.lookup ev "log_level" ≠ some (Value.level l)) :
    resolvePriority ev = Except.ok LOG_INFO := by
  unfold resolvePriority
  rw [hnf, hnp]
  cases h : Dict.lookup ev "log_level" with
  | none => simp
  | some v =>
    cases v with
    | level l => exact absurd h (hl l)
    | failure tb => simp
    | int n => simp

/-- C5 witness: a `log_level` that is the integer 42 (not a level) resolves
to INFO without an error. -/
theorem C5_unrecognized_level_info_witness :
    resolvePriority [("log_level", Value.int 42)] = Except.ok LOG_INFO :=
  C5_unrecognized_level_info [("log_level", Value.int 42)] rfl rfl (by decide)

/-- C6: for every event carrying a failure value, the resolved text is the
formatted text, a newline, then the failure's traceback, the resolved
priority is ALERT, and every submitted payload equals that appended text. -/
theorem C6_failure_appends_traceback (fmt : Dict → Option String) (ev : Dict)
    (tb : String) (subs : List Submission)
    (hl : Dict.lookup ev "log_failure" = some (Value.failure tb))
    (hc : observerCall fmt ev = Except.ok subs) :
    resolveText fmt ev = Except.ok
      ((match fmt ev with | none => "" | some s => s) ++ "\n" ++ tb) ∧
    resolvePriority ev = Except.ok LOG_ALERT ∧
    subs.map Submission.text = List.replicate subs.length
      ((match fmt ev with | none => "" | some s => s) ++ "\n" ++ tb) := by
  have ht : resolveText fmt ev = Except.ok
      ((match fmt ev with | none => "" | some s => s) ++ "\n" ++ tb) := by
    unfold resolveText
    rw [Dict.contains_eq, hl]
    simp [Dict.getitem, hl, pyGetTraceback]
  refine ⟨ht, ?_, observerCall_texts fmt ev subs _ hc ht⟩
  unfold resolvePriority
  rw [Dict.contains_eq, hl]
  simp

/-- C6 witness: formatter `"hello"`, traceback `"TB..."`: two submissions at
ALERT, each carrying `"hello\nTB..."`. -/
theorem C6_failure_appends_traceback_witness :
    resolveText (fun _ => some "hello") [("log_failure", Value.failure "TB...")]
      = Except.ok ("hello" ++ "\n" ++ "TB...") ∧
    resolvePriority [("log_failure", Value.failure "TB...")]
      = Except.ok LOG_ALERT ∧
    ([Submission.mk (LOG_ALERT ||| 0) "hello\nTB...",
      Submission.mk (LOG_ALERT ||| 0) "hello\nTB..."].map Submission.text)
      = List.replicate 2 ("hello" ++ "\n" ++ "TB...") :=
  C6_failure_appends_traceback (fun _ => some "hello")
    [("log_failure", Value.failure "TB...")] "TB..."
    [Submission.mk (LOG_ALERT ||| 0) "hello\nTB...",
     Submission.mk (LOG_ALERT ||| 0) "hello\nTB..."] rfl rfl

/-- C7 counterexample: the claim says that whenever the formatter yields an
absent value, zero submissions occur; but on an event carrying a failure, an
absent formatter value still leads to text `"\nTB"` and two submissions. -/
theorem C7_counterexample :
    (fun _ : Dict => (none : Option String))
        [("log_failure", Value.failure "TB")] = none ∧
    observerCall (fun _ => none) [("log_failure", Value.failure "TB")]
      = Except.ok [Submission.mk (LOG_ALERT ||| 0) "\nTB",
                   Submission.mk (LOG_ALERT ||| 0) "\nTB"] ∧
    observerCall (fun _ => none) [("log_failure", Value.failure "TB")]
      ≠ Except.ok [] := by
  refine ⟨rfl, rfl, fun h => ?_⟩
  have h2 : Except.ok (ε := String)
      [Submission.mk (LOG_ALERT ||| 0) "\nTB",
       Submission.mk (LOG_ALERT ||| 0) "\nTB"] = Except.ok [] := h
  simp at h2

/-- C7 (amended): for every event on which priority resolution succeeds and
whose resolved text — the formatter output with an absent value treated as
empty, after any failure-traceback append — is the empty string, zero
submission calls are made and no error is raised: a deliberate no-op. -/
theorem C7_empty_text_no_calls (fmt : Dict → Option String) (ev : Dict)
    (p : Nat) (hp : resolvePriority ev = Except.ok p)
    (ht : resolveText fmt ev = Except.ok "") :
    observerCall fmt ev = Except.ok [] := by
  unfold observerCall
  rw [ht, hp]
  simp

/-- C7 witness: an absent formatter value on an event with no failure: no
submissions and no error. -/
theorem C7_empty_text_no_calls_witness :
    observerCall (fun _ => none) [] = Except.ok [] :=
  C7_empty_text_no_calls (fun _ => none) [] LOG_INFO rfl rfl

/-- C8 (code bug): `__init__` stores `stdsyslog.syslog` and ignores its
`syslog` parameter, so an observer constructed with an injected submission
function still sends every submission to the module-level function. -/
theorem C8_injected_syslog_ignored :
    (SyslogObserver.init (fun _ => some "hello") "test_syslog" DEFAULT_OPTIONS
        DEFAULT_FACILITY (SyslogFn.custom 0)).syslogFn = SyslogFn.stdsyslog ∧
    SyslogFn.custom 0 ≠ SyslogFn.stdsyslog ∧
    (SyslogObserver.init (fun _ => some "hello") "test_syslog" DEFAULT_OPTIONS
        DEFAULT_FACILITY (SyslogFn.custom 0)).observe []
      = Except.ok [(SyslogFn.stdsyslog, Submission.mk (LOG_INFO ||| 0) "hello")] :=
  ⟨rfl, by decide, rfl⟩

/-- C9: calling the observer leaves the event unchanged — the trace of dict
operations `__call__` performs on the event consists of reads only, and
applying it to the event dictionary is the identity. -/
theorem C9_call_preserves_event (fmt : Dict → Option String) (ev : Dict) :
    (callTrace fmt ev).foldl applyOp ev = ev ∧
    (callTrace fmt ev).all DictOp.isRead = true :=
  ⟨foldl_applyOp_of_reads (callTrace fmt ev) ev (callTrace_all_reads fmt ev),
   callTrace_all_reads fmt ev⟩

/-- C10: `textSyslogObserver` passes the module defaults `DEFAULT_OPTIONS`
and `DEFAULT_FACILITY` to the constructor no matter what `options` and
`facility` arguments the caller supplied; only `prefix` and `timeFormat`
take effect (the prefix reaches `openlog`, the time format reaches the
formatter closure). -/
theorem C10_textSyslogObserver_ignores_options_facility
    (fec : Dict → (Dict → String) → Option String)
    (ft : Dict → Option String → String) (pfx : String)
    (options facility : Nat) (timeFormat : Option String) :
    (textSyslogObserver fec ft pfx options facility timeFormat).openlogOptions
        = DEFAULT_OPTIONS ∧
    (textSyslogObserver fec ft pfx options facility timeFormat).openlogFacility
        = DEFAULT_FACILITY ∧
    (textSyslogObserver fec ft pfx options facility timeFormat).openlogIdent
        = pfx ∧
    (textSyslogObserver fec ft pfx options facility timeFormat).formatEvent
        = fun event => fec event (fun e => ft e timeFormat) :=
  ⟨rfl, rfl, rfl, rfl⟩

end TwistedSyslog
